import Mathlib

/-!
Shallow embedding of `src/stock.py`, a single-user command-line inventory
tracker backed by a sqlite database, and proofs of the specified properties
of its data model and operations.

Modelling conventions:
* The sqlite database file is modelled as a `DB` value: one list per table
  plus the `AUTOINCREMENT` counters for the three generated primary keys,
  and a flag recording whether `create_tables` has run (table existence).
* The console prompting loop (`input_int`, `input_float`, menu dispatch) is
  out of scope per the spec; each operation takes its already-parsed inputs
  as arguments.  The wall-clock timestamp `datetime.now().strftime(...)` is
  passed in as a `now : String` argument.
* Python integers are `Int`; the `REAL` price column is modelled as `Rat`
  (no claim depends on floating-point behaviour; prices are only stored).
* The stock mutations issue their two SQL statements inside one sqlite
  transaction terminated by a single `conn.commit()`; this is modelled by
  `DBWrite` lists applied by `applyWrites`, with `runTxnCrash` giving the
  committed state when execution stops before the commit point.
-/

/-- Row of the `Suppliers` table: generated id, required name, optional contact. -/
structure Supplier where
  supplier_id : Nat
  name : String
  contact : Option String
deriving DecidableEq

/-- Row of the `Products` table. `quantity` is a Python int (`INTEGER NOT NULL`),
`supplier_id` a nullable foreign key. -/
structure Product where
  product_id : Nat
  name : String
  category : Option String
  quantity : Int
  price : Rat
  supplier_id : Option Nat
deriving DecidableEq

/-- Value of the `trans_type` column, constrained by `CHECK(trans_type IN ('IN','OUT'))`. -/
inductive TransType where
  | IN : TransType
  | OUT : TransType
deriving DecidableEq

/-- Row of the `Transactions` table. `date` is the formatted timestamp string. -/
structure StockTransaction where
  trans_id : Nat
  product_id : Nat
  trans_type : TransType
  quantity : Int
  date : String
deriving DecidableEq

/-- State of the database file `inventory.db`: the three tables, their
autoincrement counters, and whether the schema has been created. -/
structure DB where
  initialized : Bool
  suppliers : List Supplier
  products : List Product
  transactions : List StockTransaction
  next_supplier_id : Nat
  next_product_id : Nat
  next_trans_id : Nat
deriving DecidableEq

/-- Outcome of an operation, following the spec's error taxonomy: the Python
code prints a message and returns early on each of these paths. -/
inductive OpResult where
  | ok : OpResult
  | validationError : OpResult
  | notFound : OpResult
  | insufficientStock : OpResult
deriving DecidableEq

/-- Embeds `create_tables` (stock.py:39-75): three `CREATE TABLE IF NOT EXISTS`
statements.  Existing tables and their rows are never touched; the only state
change is that the schema now exists. -/
def create_tables (db : DB) : DB :=
  { db with initialized := true }

/-- Embeds `supplier_exists` (stock.py:113-121): `None` is not an existing
supplier; otherwise `SELECT 1 FROM Suppliers WHERE supplier_id=?`. -/
def supplier_exists (db : DB) (supplier_id : Option Nat) : Bool :=
  match supplier_id with
  | none => false
  | some sid => db.suppliers.any (fun s => s.supplier_id == sid)

/-- Embeds `add_supplier` (stock.py:80-96): rejects an empty name, otherwise
inserts a row with the next generated id. -/
def add_supplier (db : DB) (name : String) (contact : Option String) :
    DB × OpResult :=
  if name = "" then (db, .validationError)
  else
    ({ db with
        suppliers := db.suppliers ++ [⟨db.next_supplier_id, name, contact⟩]
        next_supplier_id := db.next_supplier_id + 1 }, .ok)

/-- Embeds `get_product` (stock.py:181-186):
`SELECT * FROM Products WHERE product_id=?` via `fetchone`. -/
def get_product (db : DB) (product_id : Nat) : Option Product :=
  db.products.find? (fun p => p.product_id == product_id)

/-- Embeds `add_product` (stock.py:126-157): rejects an empty name, a negative
quantity, and a supplied supplier id that does not exist (checked in the
application via `supplier_exists` before the INSERT is issued); otherwise
inserts the product row with the next generated id. -/
def add_product (db : DB) (name : String) (category : Option String)
    (quantity : Int) (price : Rat) (supplier_id : Option Nat) :
    DB × OpResult :=
  if name = "" then (db, .validationError)
  else if quantity < 0 then (db, .validationError)
  else if supplier_id.isSome && !supplier_exists db supplier_id then
    (db, .validationError)
  else
    ({ db with
        products := db.products ++
          [⟨db.next_product_id, name, category, quantity, price, supplier_id⟩]
        next_product_id := db.next_product_id + 1 }, .ok)

/-- A single SQL write statement issued inside a stock transaction:
`UPDATE Products SET quantity = quantity + ? WHERE product_id=?` (with a
signed delta), or `INSERT INTO Transactions (...)` which lets sqlite assign
the autoincremented `trans_id`. -/
inductive DBWrite where
  | updateQty : Nat → Int → DBWrite
  | insertTrans : Nat → TransType → Int → String → DBWrite
deriving DecidableEq

/-- Effect of `UPDATE Products SET quantity = quantity + delta WHERE
product_id = pid` on one product row: every row whose key matches gets the
delta, all other rows are unchanged. -/
def updateQtyRow (pid : Nat) (delta : Int) (p : Product) : Product :=
  if p.product_id = pid then { p with quantity := p.quantity + delta } else p

/-- Effect of one write statement on the database state. -/
def applyWrite (db : DB) : DBWrite → DB
  | .updateQty pid delta =>
      { db with products := db.products.map (updateQtyRow pid delta) }
  | .insertTrans pid ttype qty date =>
      { db with
          transactions := db.transactions ++
            [⟨db.next_trans_id, pid, ttype, qty, date⟩]
          next_trans_id := db.next_trans_id + 1 }

/-- Effect of a sequence of write statements, in order. -/
def applyWrites (db : DB) (ws : List DBWrite) : DB :=
  ws.foldl applyWrite db

/-- The two writes `stock_in` issues inside its single transaction
(stock.py:206-208). -/
def stock_in_writes (product_id : Nat) (qty : Int) (now : String) :
    List DBWrite :=
  [.updateQty product_id qty, .insertTrans product_id .IN qty now]

/-- The two writes `stock_out` issues inside its single transaction
(stock.py:235-237). -/
def stock_out_writes (product_id : Nat) (qty : Int) (now : String) :
    List DBWrite :=
  [.updateQty product_id (-qty), .insertTrans product_id .OUT qty now]

/-- Embeds `stock_in` (stock.py:191-214): fails if the product does not
exist, then if the quantity is not positive; on success both writes of
`stock_in_writes` are committed together. -/
def stock_in (db : DB) (product_id : Nat) (qty : Int) (now : String) :
    DB × OpResult :=
  match get_product db product_id with
  | none => (db, .notFound)
  | some _ =>
    if qty ≤ 0 then (db, .validationError)
    else (applyWrites db (stock_in_writes product_id qty now), .ok)

/-- Embeds `stock_out` (stock.py:216-243): fails if the product does not
exist, then if the quantity is not positive, then if the product's current
quantity is below the requested quantity; on success both writes of
`stock_out_writes` are committed together. -/
def stock_out (db : DB) (product_id : Nat) (qty : Int) (now : String) :
    DB × OpResult :=
  match get_product db product_id with
  | none => (db, .notFound)
  | some p =>
    if qty ≤ 0 then (db, .validationError)
    else if p.quantity < qty then (db, .insufficientStock)
    else (applyWrites db (stock_out_writes product_id qty now), .ok)

/-- Committed database state when execution of a transaction stops after
`crashAfter` of its write statements but before `conn.commit()`: sqlite
rolls the open transaction back when the connection closes, so the committed
state is unchanged.  `none` means no crash: the commit applies every write. -/
def runTxnCrash (db : DB) (ws : List DBWrite) (crashAfter : Option Nat) : DB :=
  match crashAfter with
  | some _ => db
  | none => applyWrites db ws

/-- Row returned by the low-stock report query:
`SELECT product_id, name, quantity FROM Products`. -/
structure LowStockRow where
  product_id : Nat
  name : String
  quantity : Int
deriving DecidableEq

/-- Projection of a product row onto the low-stock report's columns. -/
def lowStockRowOf (p : Product) : LowStockRow :=
  ⟨p.product_id, p.name, p.quantity⟩

/-- Ascending-quantity order used by `ORDER BY quantity`. -/
def lowRowLE (a b : LowStockRow) : Prop :=
  a.quantity ≤ b.quantity

instance : DecidableRel lowRowLE := fun a b =>
  inferInstanceAs (Decidable (a.quantity ≤ b.quantity))

instance : IsTotal LowStockRow lowRowLE :=
  ⟨fun a b => Int.le_total a.quantity b.quantity⟩

instance : IsTrans LowStockRow lowRowLE :=
  ⟨fun _ _ _ h₁ h₂ => le_trans h₁ h₂⟩

/-- Embeds `low_stock_report` (stock.py:248-266): rejects a negative
threshold, otherwise runs the read-only query
`SELECT ... FROM Products WHERE quantity <= ? ORDER BY quantity`. -/
def low_stock_report (db : DB) (threshold : Int) :
    DB × Option (List LowStockRow) :=
  if threshold < 0 then (db, none)
  else
    (db, some (List.insertionSort lowRowLE
      ((db.products.filter (fun p => p.quantity ≤ threshold)).map lowStockRowOf)))

/-- Row returned by the transactions report query: every transaction column
joined (LEFT JOIN) with the product's name, which is NULL when no product row
matches. -/
structure TransReportRow where
  trans_id : Nat
  product_id : Nat
  product_name : Option String
  trans_type : TransType
  quantity : Int
  date : String
deriving DecidableEq

/-- Joins one transaction with its product's name, as the LEFT JOIN does. -/
def transRowOf (db : DB) (t : StockTransaction) : TransReportRow :=
  ⟨t.trans_id, t.product_id, (get_product db t.product_id).map Product.name,
    t.trans_type, t.quantity, t.date⟩

/-- Order used by `ORDER BY t.date DESC, t.trans_id DESC`: `a` may precede `b`
when `a`'s date is strictly later, or the dates are equal and `a`'s id is not
smaller.  sqlite compares the TEXT dates byte-wise, modelled by the
lexicographic order on `String`. -/
def transRowLE (a b : TransReportRow) : Prop :=
  b.date < a.date ∨ (b.date = a.date ∧ b.trans_id ≤ a.trans_id)

instance : DecidableRel transRowLE := fun a b =>
  inferInstanceAs
    (Decidable (b.date < a.date ∨ (b.date = a.date ∧ b.trans_id ≤ a.trans_id)))

instance : IsTotal TransReportRow transRowLE := by
  constructor
  intro a b
  rcases lt_trichotomy a.date b.date with h | h | h
  · exact Or.inr (Or.inl h)
  · rcases Nat.le_total b.trans_id a.trans_id with h' | h'
    · exact Or.inl (Or.inr ⟨h.symm, h'⟩)
    · exact Or.inr (Or.inr ⟨h, h'⟩)
  · exact Or.inl (Or.inl h)

instance : IsTrans TransReportRow transRowLE := by
  constructor
  intro a b c hab hbc
  rcases hab with h₁ | ⟨e₁, l₁⟩
  · rcases hbc with h₂ | ⟨e₂, _⟩
    · exact Or.inl (lt_trans h₂ h₁)
    · exact Or.inl (e₂ ▸ h₁)
  · rcases hbc with h₂ | ⟨e₂, l₂⟩
    · exact Or.inl (e₁ ▸ h₂)
    · exact Or.inr ⟨e₂.trans e₁, le_trans l₂ l₁⟩

/-- Embeds `transaction_report` (stock.py:268-287): the read-only query
`SELECT ... FROM Transactions t LEFT JOIN Products p ON t.product_id =
p.product_id ORDER BY t.date DESC, t.trans_id DESC`. -/
def transaction_report (db : DB) : DB × List TransReportRow :=
  (db, List.insertionSort transRowLE (db.transactions.map (transRowOf db)))

/-- One user-level operation of the system, as dispatched by `main_menu`
(view-only operations issue no writes and are omitted from the state model,
matching their SELECT-only bodies). -/
inductive Op where
  | opCreateTables : Op
  | opAddSupplier : String → Option String → Op
  | opAddProduct : String → Option String → Int → Rat → Option Nat → Op
  | opStockIn : Nat → Int → String → Op
  | opStockOut : Nat → Int → String → Op
  | opLowStockReport : Int → Op
  | opTransactionReport : Op

/-- State reached after one operation. -/
def applyOp (db : DB) : Op → DB
  | .opCreateTables => create_tables db
  | .opAddSupplier n c => (add_supplier db n c).1
  | .opAddProduct n cat q pr s => (add_product db n cat q pr s).1
  | .opStockIn pid q now => (stock_in db pid q now).1
  | .opStockOut pid q now => (stock_out db pid q now).1
  | .opLowStockReport t => (low_stock_report db t).1
  | .opTransactionReport => (transaction_report db).1

/-- State reached after a sequence of operations, in order. -/
def applyOps (db : DB) (ops : List Op) : DB :=
  ops.foldl applyOp db

/-- A fresh `inventory.db`: no tables, no rows, sqlite autoincrement
counters starting at 1. -/
def initDB : DB :=
  ⟨false, [], [], [], 1, 1, 1⟩

/-- Sample populated database used to instantiate proved properties at
concrete inputs: one supplier, one product with quantity 10 (the spec's §8
worked example), no transactions yet. -/
def sampleDB : DB :=
  { initialized := true
    suppliers := [⟨1, "Acme", none⟩]
    products := [⟨1, "Widget", none, 10, 5, some 1⟩]
    transactions := []
    next_supplier_id := 2
    next_product_id := 2
    next_trans_id := 1 }

/-- Well-formedness of a reachable database state: every quantity is
non-negative, every product key is below the autoincrement counter, and the
product keys are pairwise distinct (the `PRIMARY KEY` constraint). -/
def Wf (db : DB) : Prop :=
  (∀ p ∈ db.products, 0 ≤ p.quantity) ∧
  (∀ p ∈ db.products, p.product_id < db.next_product_id) ∧
  (db.products.map Product.product_id).Nodup

theorem updateQtyRow_product_id (pid : Nat) (d : Int) (p : Product) :
    (updateQtyRow pid d p).product_id = p.product_id := by
  unfold updateQtyRow
  split <;> rfl

/-- With distinct product keys, any member of the table sharing the key of a
`find?` hit is that hit. -/
theorem mem_eq_of_find? {l : List Product} {pid : Nat} {p r : Product}
    (hnd : (l.map Product.product_id).Nodup)
    (hf : l.find? (fun q => q.product_id == pid) = some p)
    (hr : r ∈ l) (hid : r.product_id = pid) : r = p := by
  have hpmem : p ∈ l := List.mem_of_find?_eq_some hf
  have hppid : p.product_id = pid := by
    have h := List.find?_some hf
    simpa using h
  exact List.inj_on_of_nodup_map hnd hr hpmem (by rw [hid, hppid])

/-- Mapping the row update over the table commutes with looking a key up. -/
theorem find?_map_updateQtyRow (l : List Product) (pid pid' : Nat) (d : Int) :
    (l.map (updateQtyRow pid d)).find? (fun q => q.product_id == pid') =
      (l.find? (fun q => q.product_id == pid')).map (updateQtyRow pid d) := by
  rw [List.find?_map]
  have hfun : ((fun q : Product => q.product_id == pid') ∘ updateQtyRow pid d) =
      (fun q : Product => q.product_id == pid') := by
    funext q
    simp [Function.comp, updateQtyRow_product_id]
  rw [hfun]

theorem map_product_id_map_updateQtyRow (l : List Product) (pid : Nat) (d : Int) :
    (l.map (updateQtyRow pid d)).map Product.product_id =
      l.map Product.product_id := by
  rw [List.map_map]
  exact List.map_congr_left fun p _ => updateQtyRow_product_id pid d p

theorem Wf_updateQty {db : DB} (hWf : Wf db) {pid : Nat} {p : Product} {d : Int}
    (hp : get_product db pid = some p) (hd : 0 ≤ p.quantity + d) :
    Wf { db with products := db.products.map (updateQtyRow pid d) } := by
  obtain ⟨hq, hlt, hnd⟩ := hWf
  refine ⟨?_, ?_, ?_⟩
  · intro r hr
    simp only [List.mem_map] at hr
    obtain ⟨r₀, hr₀, rfl⟩ := hr
    unfold updateQtyRow
    split
    · rename_i hid
      have : r₀ = p := mem_eq_of_find? hnd hp hr₀ hid
      subst this
      exact hd
    · exact hq r₀ hr₀
  · intro r hr
    simp only [List.mem_map] at hr
    obtain ⟨r₀, hr₀, rfl⟩ := hr
    simpa [updateQtyRow_product_id] using hlt r₀ hr₀
  · have h2 := hnd
    rw [← map_product_id_map_updateQtyRow db.products pid d] at h2
    exact h2

theorem low_stock_report_fst (db : DB) (t : Int) :
    (low_stock_report db t).1 = db := by
  unfold low_stock_report
  split <;> rfl

theorem transaction_report_fst (db : DB) : (transaction_report db).1 = db :=
  rfl

theorem Wf_create_tables {db : DB} (h : Wf db) : Wf (create_tables db) := h

theorem Wf_add_supplier {db : DB} (h : Wf db) (n : String) (c : Option String) :
    Wf (add_supplier db n c).1 := by
  unfold add_supplier
  split <;> exact h

theorem Wf_add_product {db : DB} (h : Wf db) (n : String) (cat : Option String)
    (q : Int) (pr : Rat) (s : Option Nat) :
    Wf (add_product db n cat q pr s).1 := by
  obtain ⟨hq, hlt, hnd⟩ := h
  unfold add_product
  split
  · exact ⟨hq, hlt, hnd⟩
  split
  · exact ⟨hq, hlt, hnd⟩
  split
  · exact ⟨hq, hlt, hnd⟩
  rename_i hname hqty hsup
  refine ⟨?_, ?_, ?_⟩
  · intro p hp
    rcases List.mem_append.mp hp with hp | hp
    · exact hq p hp
    · rcases List.mem_singleton.mp hp with rfl
      exact le_of_not_lt hqty
  · intro p hp
    rcases List.mem_append.mp hp with hp | hp
    · exact Nat.lt_succ_of_lt (hlt p hp)
    · rcases List.mem_singleton.mp hp with rfl
      exact Nat.lt_succ_self _
  · rw [List.map_append]
    refine List.nodup_append.mpr ⟨hnd, List.nodup_singleton _, ?_⟩
    intro a ha ha'
    rcases List.mem_singleton.mp ha' with rfl
    simp only [List.mem_map] at ha
    obtain ⟨p, hp, hid⟩ := ha
    exact absurd (hid ▸ hlt p hp) (lt_irrefl _)

theorem Wf_stock_in {db : DB} (h : Wf db) (pid : Nat) (qty : Int)
    (now : String) : Wf (stock_in db pid qty now).1 := by
  unfold stock_in
  split
  · exact h
  rename_i p hgp
  split
  · exact h
  rename_i hqty
  have hpmem : p ∈ db.products := List.mem_of_find?_eq_some hgp
  have hd : 0 ≤ p.quantity + qty := by
    have := h.1 p hpmem
    omega
  exact Wf_updateQty h hgp hd

theorem Wf_stock_out {db : DB} (h : Wf db) (pid : Nat) (qty : Int)
    (now : String) : Wf (stock_out db pid qty now).1 := by
  unfold stock_out
  split
  · exact h
  rename_i p hgp
  split
  · exact h
  split
  · exact h
  rename_i hqty hins
  have hd : 0 ≤ p.quantity + -qty := by omega
  exact Wf_updateQty h hgp hd

theorem Wf_applyOp {db : DB} (h : Wf db) (op : Op) : Wf (applyOp db op) := by
  cases op with
  | opCreateTables => exact Wf_create_tables h
  | opAddSupplier n c => exact Wf_add_supplier h n c
  | opAddProduct n cat q pr s => exact Wf_add_product h n cat q pr s
  | opStockIn pid q now => exact Wf_stock_in h pid q now
  | opStockOut pid q now => exact Wf_stock_out h pid q now
  | opLowStockReport t =>
      show Wf (low_stock_report db t).1
      rw [low_stock_report_fst]
      exact h
  | opTransactionReport => exact h

theorem Wf_applyOps {db : DB} (h : Wf db) (ops : List Op) :
    Wf (applyOps db ops) := by
  induction ops generalizing db with
  | nil => exact h
  | cons op rest ih => exact ih (Wf_applyOp h op)

theorem Wf_initDB : Wf initDB := by
  refine ⟨?_, ?_, ?_⟩ <;> simp [initDB]

theorem get_product_id {db : DB} {pid : Nat} {p : Product}
    (hp : get_product db pid = some p) : p.product_id = pid := by
  have h := List.find?_some hp
  simpa using h

/-- On the success path, `stock_in` applies exactly its two writes: the
quantity update and the IN transaction insert. -/
theorem stock_in_success_eq {db : DB} {pid : Nat} {qty : Int} {now : String}
    {p : Product} (hp : get_product db pid = some p) (hq : 0 < qty) :
    stock_in db pid qty now =
      ({ db with
          products := db.products.map (updateQtyRow pid qty)
          transactions := db.transactions ++
            [⟨db.next_trans_id, pid, .IN, qty, now⟩]
          next_trans_id := db.next_trans_id + 1 }, .ok) := by
  unfold stock_in
  rw [hp, if_neg (not_le.mpr hq)]
  rfl

/-- On the success path, `stock_out` applies exactly its two writes: the
quantity update and the OUT transaction insert. -/
theorem stock_out_success_eq {db : DB} {pid : Nat} {qty : Int} {now : String}
    {p : Product} (hp : get_product db pid = some p) (hq : 0 < qty)
    (hle : qty ≤ p.quantity) :
    stock_out db pid qty now =
      ({ db with
          products := db.products.map (updateQtyRow pid (-qty))
          transactions := db.transactions ++
            [⟨db.next_trans_id, pid, .OUT, qty, now⟩]
          next_trans_id := db.next_trans_id + 1 }, .ok) := by
  unfold stock_out
  rw [hp]
  simp only [if_neg (not_le.mpr hq), if_neg (not_lt.mpr hle)]
  rfl

/-- C1: for every product in a database reached from a fresh database by any
sequence of system operations (products exist only via `add_product`), the
product's quantity is a non-negative integer after each operation. -/
theorem c1_quantity_nonneg (ops : List Op) (p : Product)
    (hp : p ∈ (applyOps initDB ops).products) : 0 ≤ p.quantity :=
  (Wf_applyOps Wf_initDB ops).1 p hp

theorem c1_quantity_nonneg_witness :
    (⟨1, "W", none, 3, 1, none⟩ : Product) ∈
        (applyOps initDB [Op.opAddProduct "W" none 3 1 none]).products ∧
      0 ≤ (Product.mk 1 "W" none 3 1 none).quantity :=
  ⟨by decide,
    c1_quantity_nonneg [Op.opAddProduct "W" none 3 1 none]
      ⟨1, "W", none, 3, 1, none⟩ (by decide)⟩

/-- C5: `add_product` with a supplied supplier id whose supplier does not
exist is rejected by the application-level `supplier_exists` check and no
product row is inserted (the returned state is unchanged). -/
theorem c5_supplier_validation (db : DB) (name : String)
    (category : Option String) (qty : Int) (price : Rat) (sid : Nat)
    (h : supplier_exists db (some sid) = false) :
    add_product db name category qty price (some sid) =
      (db, .validationError) := by
  unfold add_product
  split
  · rfl
  split
  · rfl
  split
  · rfl
  rename_i h3
  exfalso
  apply h3
  simp [h]

theorem c5_supplier_validation_witness :
    supplier_exists sampleDB (some 99) = false ∧
      add_product sampleDB "Gadget" none 5 2 (some 99) =
        (sampleDB, OpResult.validationError) :=
  ⟨by decide, c5_supplier_validation sampleDB "Gadget" none 5 2 99 (by decide)⟩

/-- C9: `create_tables` is idempotent: when the schema already exists it is
the identity on the whole state, its composition with itself equals a single
run, and it never touches any stored row. -/
theorem c9_create_tables_idempotent (db : DB) :
    (db.initialized = true → create_tables db = db) ∧
    create_tables (create_tables db) = create_tables db ∧
    (create_tables db).suppliers = db.suppliers ∧
    (create_tables db).products = db.products ∧
    (create_tables db).transactions = db.transactions := by
  refine ⟨?_, rfl, rfl, rfl, rfl⟩
  intro h
  cases db with
  | mk i s p t ns np nt =>
    cases h
    rfl

theorem c9_create_tables_idempotent_witness :
    sampleDB.initialized = true ∧ create_tables sampleDB = sampleDB :=
  ⟨rfl, (c9_create_tables_idempotent sampleDB).1 rfl⟩

/-- C10: with an empty supplier prompt (`supplier_id` is `None`) the
supplier-existence check is skipped and the product row is inserted with a
NULL supplier id; and `supplier_exists` returns `False` on `None`. -/
theorem c10_null_supplier (db : DB) (name : String) (category : Option String)
    (qty : Int) (price : Rat) (hname : name ≠ "") (hqty : 0 ≤ qty) :
    supplier_exists db none = false ∧
    add_product db name category qty price none =
      ({ db with
          products := db.products ++
            [⟨db.next_product_id, name, category, qty, price, none⟩]
          next_product_id := db.next_product_id + 1 }, .ok) := by
  refine ⟨rfl, ?_⟩
  unfold add_product
  rw [if_neg hname, if_neg (not_lt.mpr hqty)]
  rfl

theorem c10_null_supplier_witness :
    supplier_exists sampleDB none = false ∧
    add_product sampleDB "Bolt" none 0 1 none =
      ({ sampleDB with
          products := sampleDB.products ++
            [⟨sampleDB.next_product_id, "Bolt", none, 0, 1, none⟩]
          next_product_id := sampleDB.next_product_id + 1 }, .ok) :=
  c10_null_supplier sampleDB "Bolt" none 0 1 (by decide) (by decide)

/-- C2: `stock_in` and `stock_out` fail, leaving the database unchanged (no
quantity changed, no transaction appended), exactly when the requested
quantity is not positive, the product id does not exist, or — for
`stock_out` only — the requested quantity exceeds the product's current
quantity; on every other input they return `ok`. -/
theorem c2_failure_characterization (db : DB) (pid : Nat) (qty : Int)
    (now : String) :
    ((stock_in db pid qty now).2 ≠ .ok ↔
      qty ≤ 0 ∨ get_product db pid = none) ∧
    ((stock_in db pid qty now).2 ≠ .ok → (stock_in db pid qty now).1 = db) ∧
    ((stock_out db pid qty now).2 ≠ .ok ↔
      qty ≤ 0 ∨ get_product db pid = none ∨
        ∃ p, get_product db pid = some p ∧ p.quantity < qty) ∧
    ((stock_out db pid qty now).2 ≠ .ok → (stock_out db pid qty now).1 = db) := by
  unfold stock_in stock_out
  cases hgp : get_product db pid with
  | none => simp
  | some p =>
    by_cases hq : qty ≤ 0
    · simp [hq]
    · by_cases hins : p.quantity < qty
      · simp [hq, hins]
      · simp [hq, hins]

theorem c2_failure_characterization_witness :
    (stock_out sampleDB 1 15 "2024-01-01 00:00:00").1 = sampleDB :=
  (c2_failure_characterization sampleDB 1 15 "2024-01-01 00:00:00").2.2.2
    (by decide)

/-- C3: a successful `stock_in` increases the product's quantity by exactly
`qty` and appends exactly one IN transaction record with quantity `qty` and
the current timestamp, and a successful `stock_out` decreases it by exactly
`qty` and appends exactly one OUT record; the record matches the applied
delta and direction, suppliers and every other product row are untouched,
and no other rows are created. -/
theorem c3_success_effects (db : DB) (pid : Nat) (qty : Int) (now : String)
    (p : Product) (hp : get_product db pid = some p) (hq : 0 < qty) :
    ((stock_in db pid qty now).2 = .ok ∧
     get_product (stock_in db pid qty now).1 pid =
       some { p with quantity := p.quantity + qty } ∧
     (stock_in db pid qty now).1.transactions =
       db.transactions ++ [⟨db.next_trans_id, pid, .IN, qty, now⟩] ∧
     (stock_in db pid qty now).1.suppliers = db.suppliers ∧
     (stock_in db pid qty now).1.products.length = db.products.length ∧
     (∀ r ∈ db.products, r.product_id ≠ pid →
        r ∈ (stock_in db pid qty now).1.products)) ∧
    (qty ≤ p.quantity →
      ((stock_out db pid qty now).2 = .ok ∧
       get_product (stock_out db pid qty now).1 pid =
         some { p with quantity := p.quantity - qty } ∧
       (stock_out db pid qty now).1.transactions =
         db.transactions ++ [⟨db.next_trans_id, pid, .OUT, qty, now⟩] ∧
       (stock_out db pid qty now).1.suppliers = db.suppliers ∧
       (stock_out db pid qty now).1.products.length = db.products.length ∧
       (∀ r ∈ db.products, r.product_id ≠ pid →
          r ∈ (stock_out db pid qty now).1.products))) := by
  have hppid : p.product_id = pid := get_product_id hp
  have hfind : db.products.find? (fun q => q.product_id == pid) = some p := hp
  constructor
  · rw [stock_in_success_eq hp hq]
    refine ⟨rfl, ?_, rfl, rfl, List.length_map _ _, ?_⟩
    · show (db.products.map (updateQtyRow pid qty)).find?
          (fun q => q.product_id == pid) = _
      rw [find?_map_updateQtyRow, hfind]
      simp [updateQtyRow, hppid]
    · intro r hr hne
      refine List.mem_map.mpr ⟨r, hr, ?_⟩
      simp [updateQtyRow, hne]
  · intro hle
    rw [stock_out_success_eq hp hq hle]
    refine ⟨rfl, ?_, rfl, rfl, List.length_map _ _, ?_⟩
    · show (db.products.map (updateQtyRow pid (-qty))).find?
          (fun q => q.product_id == pid) = _
      rw [find?_map_updateQtyRow, hfind]
      simp [updateQtyRow, hppid, sub_eq_add_neg]
    · intro r hr hne
      refine List.mem_map.mpr ⟨r, hr, ?_⟩
      simp [updateQtyRow, hne]

theorem c3_success_effects_witness :
    (stock_out sampleDB 1 4 "2024-01-01 10:00:00").2 = OpResult.ok :=
  ((c3_success_effects sampleDB 1 4 "2024-01-01 10:00:00"
      ⟨1, "Widget", none, 10, 5, some 1⟩ (by decide) (by decide)).2
    (by decide)).1

/-- C4: the quantity update and the transaction insert of `stock_in` and
`stock_out` are committed as one transactional unit: a crash at any point
before the single commit leaves the database unchanged (neither write
applied), and a committed run applies exactly both writes of the
operation. -/
theorem c4_atomicity (db : DB) (pid : Nat) (qty : Int) (now : String)
    (p : Product) (hp : get_product db pid = some p) (hq : 0 < qty) :
    (∀ k : Nat, runTxnCrash db (stock_in_writes pid qty now) (some k) = db) ∧
    (stock_in db pid qty now).1 =
      runTxnCrash db (stock_in_writes pid qty now) none ∧
    (∀ c : Option Nat,
      runTxnCrash db (stock_in_writes pid qty now) c = db ∨
      runTxnCrash db (stock_in_writes pid qty now) c =
        (stock_in db pid qty now).1) ∧
    (qty ≤ p.quantity →
      (∀ k : Nat,
        runTxnCrash db (stock_out_writes pid qty now) (some k) = db) ∧
      (stock_out db pid qty now).1 =
        runTxnCrash db (stock_out_writes pid qty now) none ∧
      (∀ c : Option Nat,
        runTxnCrash db (stock_out_writes pid qty now) c = db ∨
        runTxnCrash db (stock_out_writes pid qty now) c =
          (stock_out db pid qty now).1)) := by
  have hin : (stock_in db pid qty now).1 =
      runTxnCrash db (stock_in_writes pid qty now) none := by
    rw [stock_in_success_eq hp hq]
    rfl
  refine ⟨fun k => rfl, hin, ?_, fun hle => ?_⟩
  · intro c
    cases c with
    | none => exact Or.inr hin.symm
    | some k => exact Or.inl rfl
  · have hout : (stock_out db pid qty now).1 =
        runTxnCrash db (stock_out_writes pid qty now) none := by
      rw [stock_out_success_eq hp hq hle]
      rfl
    refine ⟨fun k => rfl, hout, ?_⟩
    intro c
    cases c with
    | none => exact Or.inr hout.symm
    | some k => exact Or.inl rfl

theorem c4_atomicity_witness :
    runTxnCrash sampleDB (stock_in_writes 1 4 "2024-01-01 10:00:00")
        (some 1) = sampleDB :=
  (c4_atomicity sampleDB 1 4 "2024-01-01 10:00:00"
      ⟨1, "Widget", none, 10, 5, some 1⟩ (by decide) (by decide)).1 1

/-- C6: transaction records are append-only: no operation of the system
(`create_tables`, `add_supplier`, `add_product`, `stock_in`, `stock_out`, or
either report) ever updates or deletes an existing transaction record — the
previous `Transactions` table is always an unmodified prefix of the new one. -/
theorem c6_transactions_append_only (db : DB) (op : Op) :
    ∃ newRows, (applyOp db op).transactions = db.transactions ++ newRows := by
  cases op with
  | opCreateTables => exact ⟨[], (List.append_nil _).symm⟩
  | opAddSupplier n c =>
      simp only [applyOp]
      unfold add_supplier
      split
      · exact ⟨[], (List.append_nil _).symm⟩
      · exact ⟨[], (List.append_nil _).symm⟩
  | opAddProduct n cat q pr s =>
      simp only [applyOp]
      unfold add_product
      split
      · exact ⟨[], (List.append_nil _).symm⟩
      split
      · exact ⟨[], (List.append_nil _).symm⟩
      split
      · exact ⟨[], (List.append_nil _).symm⟩
      · exact ⟨[], (List.append_nil _).symm⟩
  | opStockIn pid q now =>
      simp only [applyOp]
      unfold stock_in
      split
      · exact ⟨[], (List.append_nil _).symm⟩
      split
      · exact ⟨[], (List.append_nil _).symm⟩
      · exact ⟨[⟨db.next_trans_id, pid, .IN, q, now⟩], rfl⟩
  | opStockOut pid q now =>
      simp only [applyOp]
      unfold stock_out
      split
      · exact ⟨[], (List.append_nil _).symm⟩
      split
      · exact ⟨[], (List.append_nil _).symm⟩
      split
      · exact ⟨[], (List.append_nil _).symm⟩
      · exact ⟨[⟨db.next_trans_id, pid, .OUT, q, now⟩], rfl⟩
  | opLowStockReport t =>
      refine ⟨[], ?_⟩
      show (low_stock_report db t).1.transactions = _
      rw [low_stock_report_fst]
      exact (List.append_nil _).symm
  | opTransactionReport => exact ⟨[], (List.append_nil _).symm⟩

/-- C7: for every non-negative threshold the low-stock report leaves the
database unchanged and returns exactly the products whose quantity is at
most the threshold, ordered ascending by quantity. -/
theorem c7_low_stock_report (db : DB) (threshold : Int)
    (h : 0 ≤ threshold) :
    ∃ rows,
      low_stock_report db threshold = (db, some rows) ∧
      rows.Perm ((db.products.filter
        (fun p => p.quantity ≤ threshold)).map lowStockRowOf) ∧
      rows.Sorted lowRowLE := by
  refine ⟨List.insertionSort lowRowLE ((db.products.filter
    (fun p => p.quantity ≤ threshold)).map lowStockRowOf), ?_,
    List.perm_insertionSort _ _, List.sorted_insertionSort _ _⟩
  unfold low_stock_report
  rw [if_neg (not_lt.mpr h)]

theorem c7_low_stock_report_witness :
    ∃ rows,
      low_stock_report sampleDB 0 = (sampleDB, some rows) ∧
      rows.Perm ((sampleDB.products.filter
        (fun p => p.quantity ≤ (0 : Int))).map lowStockRowOf) ∧
      rows.Sorted lowRowLE :=
  c7_low_stock_report sampleDB 0 (by decide)

/-- C8: the transaction report leaves the database unchanged and returns all
transaction records, each joined with its product's name, ordered by
timestamp descending with ties broken by transaction id descending. -/
theorem c8_transaction_report_sorted (db : DB) :
    (transaction_report db).1 = db ∧
    (transaction_report db).2.Perm (db.transactions.map (transRowOf db)) ∧
    (transaction_report db).2.Sorted transRowLE :=
  ⟨rfl, List.perm_insertionSort _ _, List.sorted_insertionSort _ _⟩
